import Mathlib

/-!
Verification of the usage-quota and subscription-state engine of a
chat backend.  The Python source is shallowly embedded: each route
handler or model method becomes a Lean function over explicit state,
with the ambient clock (`datetime.now()`) passed as a parameter.

Timestamps are modelled as a calendar day ordinal paired with a
time-of-day, so that `datetime.date()` is the `day` projection and
comparison of timestamps is lexicographic.
-/

namespace ChatDys

/-- A point in time: `day` is the calendar date (days since epoch),
`tod` the seconds within that day.  Mirrors a Python `datetime`, whose
`.date()` is the `day` component. -/
structure DateTime where
  day : Nat
  tod : Nat
deriving DecidableEq, Repr

namespace DateTime

/-- Strict comparison of timestamps (Python `<` on `datetime`):
lexicographic on (day, time-of-day). -/
def lt (a b : DateTime) : Bool :=
  decide (a.day < b.day) || (decide (a.day = b.day) && decide (a.tod < b.tod))

/-- Non-strict comparison of timestamps. -/
def le (a b : DateTime) : Bool :=
  decide (a.day < b.day) || (decide (a.day = b.day) && decide (a.tod ≤ b.tod))

/-- Python `datetime.fromtimestamp`: seconds since epoch to a timestamp. -/
def fromtimestamp (t : Nat) : DateTime :=
  ⟨t / 86400, t % 86400⟩

/-- Python `timedelta(days = n)` added to a timestamp. -/
def addDays (a : DateTime) (n : Nat) : DateTime :=
  ⟨a.day + n, a.tod⟩

end DateTime

/-- The `users` table row (`src/models/user.py`), restricted to the
fields the quota engine, premium-expiry check and subscription
synchronizer read or write.  Counters are `Nat`: they start at 0 and
are only ever incremented. -/
structure User where
  id : String
  email : String
  question_count : Nat
  daily_question_count : Nat
  last_question_date : Option DateTime
  total_conversations : Nat
  is_premium : Bool
  subscription_status : String
  subscription_id : Option String
  premium_expires_at : Option DateTime
  login_count : Nat
  is_active : Bool
deriving DecidableEq, Repr

namespace User

/-- `User.can_ask_questions` (`src/models/user.py:142-155`).  `today`
is `datetime.now().date()`. -/
def can_ask_questions (u : User) (today : Nat) (daily_limit : Nat) : Bool :=
  if u.is_premium then
    true
  else
    match u.last_question_date with
    | some lqd =>
        if lqd.day ≠ today then
          true
        else
          decide (u.daily_question_count < daily_limit)
    | none => decide (u.daily_question_count < daily_limit)

/-- `User.reset_daily_count_if_needed` (`src/models/user.py:157-163`). -/
def reset_daily_count_if_needed (u : User) (today : Nat) : User :=
  match u.last_question_date with
  | some lqd =>
      if lqd.day ≠ today then
        { u with daily_question_count := 0 }
      else
        u
  | none => u

end User

/-- The free-tier daily limit (`settings.FREE_USER_DAILY_LIMIT`). -/
def FREE_USER_DAILY_LIMIT : Nat := 5

/-- The `POST /increment-question` handler
(`src/api/user_routes.py:217-247`): reject with 429 when the quota
check fails, otherwise reset the daily counter for a new day and
record the question. -/
def increment_question_count (u : User) (now : DateTime) (daily_limit : Nat) :
    Except String User :=
  if ¬ u.can_ask_questions now.day daily_limit then
    .error "Daily question limit reached. Upgrade to Premium for unlimited questions."
  else
    let u := u.reset_daily_count_if_needed now.day
    .ok { u with
          question_count := u.question_count + 1,
          daily_question_count := u.daily_question_count + 1,
          last_question_date := some now }

/-- The state effect of `GET /check-premium`
(`src/api/user_routes.py:342-359`): lazily demote a premium account
whose `premium_expires_at` lies strictly in the past. -/
def check_premium_status (u : User) (now : DateTime) : User :=
  if u.is_premium then
    match u.premium_expires_at with
    | some expiry =>
        if expiry.lt now then
          { u with is_premium := false, subscription_status := "expired" }
        else
          u
    | none => u
  else
    u

/-- A `conversations` table row (`src/models/conversation.py`),
restricted to the fields the chat routes touch. -/
structure Conversation where
  id : String
  user_id : String
  title : String
  is_active : Bool
  message_count : Nat
  last_message_at : Option DateTime
deriving DecidableEq, Repr

/-- A `messages` table row (`src/models/conversation.py`), restricted
to the fields the chat routes touch. -/
structure Message where
  id : String
  conversation_id : String
  user_id : String
  role : String
  content : String
  sources : Option (List String)
  confidence_score : Option Nat
  processing_time : Option Nat
  model_used : Option String
  created_at : DateTime
deriving DecidableEq, Repr

/-- The relational store seen by the chat routes: conversations and
messages in insertion order. -/
structure Store where
  conversations : List Conversation
  messages : List Message
deriving DecidableEq, Repr

/-- Replace the first list element satisfying `p` by its image under
`f` (the effect of mutating the row returned by `.filter(...).first()`
and committing). -/
def updateFirst {α : Type} (p : α → Bool) (f : α → α) : List α → List α
  | [] => []
  | x :: xs => if p x then f x :: xs else x :: updateFirst p f xs

/-- Insert a message into a list sorted by ascending `created_at`. -/
def insertByCreated (m : Message) : List Message → List Message
  | [] => [m]
  | x :: xs =>
      if m.created_at.le x.created_at then m :: x :: xs
      else x :: insertByCreated m xs

/-- Sort messages by ascending `created_at` (the effect of
`.order_by(Message.created_at.asc())`). -/
def sortByCreatedAsc (l : List Message) : List Message :=
  l.foldr insertByCreated []

/-- A context entry handed to the answer provider: a message reduced
to role and content. -/
structure ContextMessage where
  role : String
  content : String
deriving DecidableEq, Repr

/-- `get_conversation_history` (`src/api/chat_routes.py:281-293`):
query the messages of a conversation ordered by ascending
`created_at`, `LIMIT 10`, and reduce each to role and content. -/
def get_conversation_history (conversation_id : String) (st : Store) :
    List ContextMessage :=
  ((sortByCreatedAsc
      (st.messages.filter (fun m => m.conversation_id = conversation_id))).take 10).map
    (fun m => ⟨m.role, m.content⟩)

/-- Python `str.strip()`: drop leading and trailing whitespace. -/
def pyStrip (s : String) : String :=
  ⟨((s.data.dropWhile Char.isWhitespace).reverse.dropWhile
      Char.isWhitespace).reverse⟩

/-- The body of a `POST /query` request. -/
structure ChatRequest where
  question : String
  conversation_id : Option String
deriving DecidableEq, Repr

/-- The rejection paths of `POST /query`. -/
inductive ChatError where
  | quotaExceeded
  | emptyQuestion
  | questionTooLong
deriving DecidableEq, Repr

/-- HTTP status code of each rejection, as raised by the handler. -/
def ChatError.status_code : ChatError → Nat
  | .quotaExceeded => 429
  | .emptyQuestion => 400
  | .questionTooLong => 400

/-- The answer-provider payload (`chat_service.get_response`), an
external collaborator: each field read with `.get` in the handler is
optional. -/
structure AIResponse where
  answer : Option String
  sources : Option (List String)
  confidence_score : Option Nat
  model_used : Option String
deriving DecidableEq, Repr

/-- The success payload of `POST /query`. -/
structure ChatResponse where
  answer : String
  conversation_id : String
  message_id : String
deriving DecidableEq, Repr

/-- `send_message`, the `POST /query` handler
(`src/api/chat_routes.py:36-146`).  `now` is the ambient clock,
`ai` the answer-provider result, and the fresh ids stand for the
generated UUIDs.  On a rejection the handler raises before any write,
so the incoming user and store are returned unchanged. -/
def send_message (req : ChatRequest) (u : User) (st : Store) (now : DateTime)
    (daily_limit : Nat) (ai : AIResponse)
    (newConvId newUserMsgId newAiMsgId : String) :
    User × Store × Except ChatError ChatResponse :=
  if ¬ u.can_ask_questions now.day daily_limit then
    (u, st, .error .quotaExceeded)
  else if (pyStrip req.question).length = 0 then
    (u, st, .error .emptyQuestion)
  else if req.question.length > 2000 then
    (u, st, .error .questionTooLong)
  else
    let found : Option Conversation :=
      match req.conversation_id with
      | some cid =>
          st.conversations.find?
            (fun c => c.id = cid && c.user_id = u.id && c.is_active)
      | none => none
    let (conv, st) :=
      match found with
      | some c => (c, st)
      | none =>
          let c : Conversation :=
            { id := newConvId
              user_id := u.id
              title :=
                if req.question.length > 50 then
                  req.question.take 50 ++ "..."
                else
                  req.question
              is_active := true
              message_count := 0
              last_message_at := none }
          (c, { st with conversations := st.conversations ++ [c] })
    let user_message : Message :=
      { id := newUserMsgId
        conversation_id := conv.id
        user_id := u.id
        role := "user"
        content := req.question
        sources := none
        confidence_score := none
        processing_time := none
        model_used := none
        created_at := now }
    let ai_message : Message :=
      { id := newAiMsgId
        conversation_id := conv.id
        user_id := u.id
        role := "assistant"
        content := ai.answer.getD "I apologize, but I couldn\x27t generate a response."
        sources := ai.sources
        confidence_score := ai.confidence_score
        processing_time := some 0
        model_used := some (ai.model_used.getD "gpt-4")
        created_at := now }
    let newCount := conv.message_count + 2
    let st :=
      { st with
        messages := st.messages ++ [user_message, ai_message]
        conversations :=
          updateFirst (fun c => c.id = conv.id)
            (fun c =>
              { c with
                message_count := c.message_count + 2
                last_message_at := some now })
            st.conversations }
    let u :=
      if newCount = 2 then
        { u with total_conversations := u.total_conversations + 1 }
      else
        u
    (u, st, .ok { answer := ai_message.content
                  conversation_id := conv.id
                  message_id := ai_message.id })

/-- The fields of a Stripe checkout-session payload that
`handle_checkout_completed` reads. -/
structure CheckoutSession where
  metadata_user_id : Option String
  subscription : Option String
deriving DecidableEq, Repr

/-- The fields of a Stripe subscription payload that the
subscription-updated and subscription-deleted handlers read.
`current_period_end` is a Unix timestamp. -/
structure SubscriptionObj where
  id : String
  status : String
  current_period_end : Option Nat
deriving DecidableEq, Repr

/-- The fields of a Stripe invoice payload that the payment-succeeded
and payment-failed handlers read.  `period_end` is a Unix timestamp. -/
structure Invoice where
  subscription : Option String
  period_end : Option Nat
deriving DecidableEq, Repr

/-- The row update performed by `handle_checkout_completed`
(`src/api/payment_routes.py:173-177`). -/
def apply_checkout_completed (session : CheckoutSession) (now : DateTime)
    (u : User) : User :=
  { u with
    is_premium := true
    subscription_status := "active"
    subscription_id := session.subscription
    premium_expires_at := some (now.addDays 30) }

/-- `handle_checkout_completed` (`src/api/payment_routes.py:160-183`):
locate the account by the `user_id` carried in the session metadata
and upgrade it; a missing id or no matching account is a no-op. -/
def handle_checkout_completed (session : CheckoutSession) (now : DateTime)
    (users : List User) : List User :=
  match session.metadata_user_id with
  | none => users
  | some uid =>
      updateFirst (fun u => u.id = uid)
        (apply_checkout_completed session now) users

/-- The row update performed by `handle_subscription_updated`
(`src/api/payment_routes.py:196-205`). -/
def apply_subscription_updated (subscription : SubscriptionObj) (u : User) :
    User :=
  let u1 := { u with subscription_status := subscription.status }
  if subscription.status = "active" then
    let u2 := { u1 with is_premium := true }
    match subscription.current_period_end with
    | some t => { u2 with premium_expires_at := some (DateTime.fromtimestamp t) }
    | none => u2
  else if subscription.status = "canceled" || subscription.status = "unpaid"
      || subscription.status = "past_due" then
    { u1 with is_premium := false }
  else
    u1

/-- `handle_subscription_updated` (`src/api/payment_routes.py:185-211`):
locate the account by `subscription_id` and apply the status change. -/
def handle_subscription_updated (subscription : SubscriptionObj)
    (users : List User) : List User :=
  updateFirst (fun u => u.subscription_id = some subscription.id)
    (apply_subscription_updated subscription) users

/-- `handle_subscription_deleted` (`src/api/payment_routes.py:213-230`). -/
def handle_subscription_deleted (subscription : SubscriptionObj)
    (users : List User) : List User :=
  updateFirst (fun u => u.subscription_id = some subscription.id)
    (fun u => { u with is_premium := false, subscription_status := "canceled" })
    users

/-- The row update performed by `handle_payment_succeeded`
(`src/api/payment_routes.py:243-248`): the fields change only when the
invoice carries a period end. -/
def apply_payment_succeeded (invoice : Invoice) (u : User) : User :=
  match invoice.period_end with
  | some t =>
      { u with
        premium_expires_at := some (DateTime.fromtimestamp t)
        is_premium := true
        subscription_status := "active" }
  | none => u

/-- `handle_payment_succeeded` (`src/api/payment_routes.py:232-254`). -/
def handle_payment_succeeded (invoice : Invoice) (users : List User) :
    List User :=
  match invoice.subscription with
  | none => users
  | some sid =>
      updateFirst (fun u => u.subscription_id = some sid)
        (apply_payment_succeeded invoice) users

/-- `handle_payment_failed` (`src/api/payment_routes.py:256-274`):
mark the account past due; premium access is deliberately kept. -/
def handle_payment_failed (invoice : Invoice) (users : List User) :
    List User :=
  match invoice.subscription with
  | none => users
  | some sid =>
      updateFirst (fun u => u.subscription_id = some sid)
        (fun u => { u with subscription_status := "past_due" }) users

/-- One quota-checked question-increment operation as a state
transformer: a rejected request leaves the account untouched. -/
def quota_step (daily_limit : Nat) (u : User) (now : DateTime) : User :=
  match increment_question_count u now daily_limit with
  | .ok u2 => u2
  | .error _ => u

/-- A sequence of quota-checked question-increment operations. -/
def quota_run (daily_limit : Nat) (u : User) (times : List DateTime) : User :=
  times.foldl (quota_step daily_limit) u

/-- A concrete non-premium account at the daily limit, last question
on day 100; used to instantiate several theorems. -/
def sampleUser : User :=
  { id := "u1"
    email := "a@b.c"
    question_count := 12
    daily_question_count := 5
    last_question_date := some ⟨100, 30⟩
    total_conversations := 3
    is_premium := false
    subscription_status := "free"
    subscription_id := none
    premium_expires_at := none
    login_count := 7
    is_active := true }

/-- The sample account with its last question on day 99 (yesterday
relative to day 100). -/
def staleUser : User :=
  { sampleUser with last_question_date := some ⟨99, 10⟩ }

/-- The sample account with no questions asked today. -/
def freshUser : User :=
  { sampleUser with daily_question_count := 0 }

/-- A premium account whose entitlement lapsed on day 90. -/
def lapsedUser : User :=
  { sampleUser with
    is_premium := true
    subscription_status := "active"
    premium_expires_at := some ⟨90, 0⟩ }

/-- An active premium subscriber with a known subscription id. -/
def subUser : User :=
  { sampleUser with
    is_premium := true
    subscription_status := "active"
    subscription_id := some "sub9" }

/-- An empty relational store. -/
def emptyStore : Store := ⟨[], []⟩

/-- An answer-provider payload with every optional field absent. -/
def noAI : AIResponse := ⟨none, none, none, none⟩

/-- A checkout session carrying the sample account id. -/
def checkoutSession1 : CheckoutSession := ⟨some "u1", some "sub1"⟩

/-- The `n`-th message of the history fixture: created on day `n`. -/
def histMsg (n : Nat) (content : String) : Message :=
  { id := toString n
    conversation_id := "c1"
    user_id := "u1"
    role := "user"
    content := content
    sources := none
    confidence_score := none
    processing_time := none
    model_used := none
    created_at := ⟨n, 0⟩ }

/-- A store holding one conversation with eleven messages, created on
days 1 through 11. -/
def histStore : Store :=
  { conversations := [⟨"c1", "u1", "t", true, 22, none⟩]
    messages :=
      [histMsg 1 "m01", histMsg 2 "m02", histMsg 3 "m03", histMsg 4 "m04",
       histMsg 5 "m05", histMsg 6 "m06", histMsg 7 "m07", histMsg 8 "m08",
       histMsg 9 "m09", histMsg 10 "m10", histMsg 11 "m11"] }

/-- `updateFirst` is idempotent whenever the row update is idempotent
and preserves the selection predicate. -/
theorem updateFirst_idem {α : Type} (p : α → Bool) (f : α → α)
    (hf : ∀ x, f (f x) = f x) (hp : ∀ x, p (f x) = p x) :
    ∀ l, updateFirst p f (updateFirst p f l) = updateFirst p f l
  | [] => rfl
  | x :: xs => by
      by_cases h : p x = true
      · simp [updateFirst, h, hp x, hf x]
      · simp [updateFirst, h, updateFirst_idem p f hf hp xs]

/-- `updateFirst` keeps the list length. -/
theorem updateFirst_length {α : Type} (p : α → Bool) (f : α → α) :
    ∀ l : List α, (updateFirst p f l).length = l.length
  | [] => rfl
  | x :: xs => by
      by_cases h : p x = true <;>
        simp [updateFirst, h, updateFirst_length p f xs]

/-- At the first index satisfying `p`, `updateFirst` applies `f`. -/
theorem updateFirst_getElem_first_match {α : Type} (p : α → Bool) (f : α → α) :
    ∀ (l : List α) (i : Nat) (hi : i < l.length),
      p l[i] = true →
      (∀ j (hj : j < l.length), j < i → p l[j] = false) →
      (updateFirst p f l)[i]? = some (f l[i])
  | [], i, hi => by simp at hi
  | x :: xs, 0, hi => by
      intro hmatch _
      have hx : p x = true := by simpa using hmatch
      simp [updateFirst, hx]
  | x :: xs, i + 1, hi => by
      intro hmatch hfirst
      have hx : p x = false := by
        have := hfirst 0 (Nat.succ_pos _) (Nat.succ_pos i)
        simpa using this
      have hi2 : i < xs.length := Nat.lt_of_succ_lt_succ hi
      have ih := updateFirst_getElem_first_match p f xs i hi2
        (by simpa using hmatch)
        (fun j hj hji => by
          have := hfirst (j + 1) (Nat.succ_lt_succ hj) (Nat.succ_lt_succ hji)
          simpa using this)
      simp [updateFirst, hx, ih]

/-- The subscription-updated row update is idempotent. -/
theorem apply_subscription_updated_idem (s : SubscriptionObj) (u : User) :
    apply_subscription_updated s (apply_subscription_updated s u) =
      apply_subscription_updated s u := by
  cases h : s.current_period_end <;>
    by_cases h1 : s.status = "active" <;>
      by_cases h2 : (s.status = "canceled" || s.status = "unpaid"
        || s.status = "past_due") = true <;>
    simp [apply_subscription_updated, h, h1, h2]

/-- The subscription-updated row update does not touch
`subscription_id`. -/
theorem apply_subscription_updated_sub_id (s : SubscriptionObj) (u : User) :
    (apply_subscription_updated s u).subscription_id = u.subscription_id := by
  cases h : s.current_period_end <;>
    by_cases h1 : s.status = "active" <;>
      by_cases h2 : (s.status = "canceled" || s.status = "unpaid"
        || s.status = "past_due") = true <;>
    simp [apply_subscription_updated, h, h1, h2]

/-- The payment-succeeded row update is idempotent. -/
theorem apply_payment_succeeded_idem (inv : Invoice) (u : User) :
    apply_payment_succeeded inv (apply_payment_succeeded inv u) =
      apply_payment_succeeded inv u := by
  cases h : inv.period_end <;> simp [apply_payment_succeeded, h]

/-- The payment-succeeded row update does not touch
`subscription_id`. -/
theorem apply_payment_succeeded_sub_id (inv : Invoice) (u : User) :
    (apply_payment_succeeded inv u).subscription_id = u.subscription_id := by
  cases h : inv.period_end <;> simp [apply_payment_succeeded, h]

/-- C1: `can_ask_questions` is true unconditionally for premium
accounts; otherwise true whenever `last_question_date` is set on a
calendar date other than today; otherwise true exactly when
`daily_question_count < daily_limit`. -/
theorem can_ask_questions_spec (u : User) (today daily_limit : Nat) :
    (u.is_premium = true → u.can_ask_questions today daily_limit = true) ∧
    (u.is_premium = false →
      ∀ lqd, u.last_question_date = some lqd → lqd.day ≠ today →
        u.can_ask_questions today daily_limit = true) ∧
    (u.is_premium = false → u.last_question_date = none →
      (u.can_ask_questions today daily_limit = true ↔
        u.daily_question_count < daily_limit)) ∧
    (u.is_premium = false →
      ∀ lqd, u.last_question_date = some lqd → lqd.day = today →
        (u.can_ask_questions today daily_limit = true ↔
          u.daily_question_count < daily_limit)) := by
  refine ⟨fun hp => ?_, fun hp lqd hl hd => ?_, fun hp hl => ?_, fun hp lqd hl hd => ?_⟩
  · simp [User.can_ask_questions, hp]
  · simp [User.can_ask_questions, hp, hl, hd]
  · simp [User.can_ask_questions, hp, hl]
  · simp [User.can_ask_questions, hp, hl, hd]

/-- Witness for C1: instantiating the characterisation at a concrete
non-premium account whose last question was on day 100 shows it cannot
ask on day 100 with a limit of 5, yet can ask on day 101. -/
theorem can_ask_questions_spec_witness :
    (sampleUser.can_ask_questions 100 5 = true ↔ sampleUser.daily_question_count < 5) ∧
    sampleUser.can_ask_questions 101 5 = true :=
  ⟨(can_ask_questions_spec sampleUser 100 5).2.2.2 rfl ⟨100, 30⟩ rfl rfl,
   (can_ask_questions_spec sampleUser 101 5).2.1 rfl ⟨100, 30⟩ rfl (by decide)⟩

/-- A quota-passing request with a valid question reaches the success
path of `send_message`. -/
theorem send_message_accepts (req : ChatRequest) (u : User) (st : Store)
    (now : DateTime) (daily_limit : Nat) (ai : AIResponse) (c m1 m2 : String)
    (hcan : u.can_ask_questions now.day daily_limit = true)
    (hq1 : (pyStrip req.question).length ≠ 0)
    (hq2 : req.question.length ≤ 2000) :
    ((send_message req u st now daily_limit ai c m1 m2).2.2).isOk = true := by
  have h2000 : ¬ req.question.length > 2000 := Nat.not_lt.2 hq2
  cases hcid : req.conversation_id with
  | none => simp [send_message, hcan, hq1, h2000, hcid, Except.isOk, Except.toBool]
  | some cid =>
      cases hf : st.conversations.find?
          (fun cv => cv.id = cid && cv.user_id = u.id && cv.is_active) with
      | none =>
          simp [send_message, hcan, hq1, h2000, hcid, hf, Except.isOk,
            Except.toBool]
      | some conv =>
          simp [send_message, hcan, hq1, h2000, hcid, hf, Except.isOk,
            Except.toBool]

/-- C2: a non-premium account whose last question was on an earlier
calendar day is accepted today; recording the question sets the daily
counter to exactly 1, increments the lifetime counter by exactly 1,
and stamps `last_question_date` with today.  (The counter update is
the `POST /increment-question` handler, which the client invokes for
each accepted `POST /query`.) -/
theorem question_after_new_day (u : User) (now d : DateTime) (daily_limit : Nat)
    (req : ChatRequest) (st : Store) (ai : AIResponse) (c m1 m2 : String)
    (hp : u.is_premium = false)
    (hl : u.last_question_date = some d)
    (hd : d.day < now.day)
    (hq1 : (pyStrip req.question).length ≠ 0)
    (hq2 : req.question.length ≤ 2000) :
    ((send_message req u st now daily_limit ai c m1 m2).2.2).isOk = true ∧
    ∃ u', increment_question_count u now daily_limit = .ok u' ∧
      u'.daily_question_count = 1 ∧
      u'.question_count = u.question_count + 1 ∧
      ∃ d', u'.last_question_date = some d' ∧ d'.day = now.day := by
  have hne : d.day ≠ now.day := Nat.ne_of_lt hd
  have hcan : u.can_ask_questions now.day daily_limit = true := by
    simp [User.can_ask_questions, hp, hl, hne]
  have key : increment_question_count u now daily_limit =
      .ok { u with
            question_count := u.question_count + 1
            daily_question_count := 1
            last_question_date := some now } := by
    simp [increment_question_count, hcan, User.reset_daily_count_if_needed,
      hl, hne]
  exact ⟨send_message_accepts req u st now daily_limit ai c m1 m2 hcan hq1 hq2,
    _, key, rfl, rfl, now, rfl, rfl⟩

/-- Witness for C2: the account that last asked on day 99 (with a full
daily counter) is accepted on day 100 and ends with a daily count of
exactly 1. -/
theorem question_after_new_day_witness :
    ((send_message ⟨"hello", none⟩ staleUser emptyStore ⟨100, 40⟩ 5 noAI
        "c" "m1" "m2").2.2).isOk = true ∧
    ∃ u', increment_question_count staleUser ⟨100, 40⟩ 5 = .ok u' ∧
      u'.daily_question_count = 1 ∧
      u'.question_count = staleUser.question_count + 1 ∧
      ∃ d', u'.last_question_date = some d' ∧
        d'.day = (⟨100, 40⟩ : DateTime).day :=
  question_after_new_day staleUser ⟨100, 40⟩ ⟨99, 10⟩ 5 ⟨"hello", none⟩
    emptyStore noAI "c" "m1" "m2" rfl rfl (by decide) (by decide) (by decide)

/-- C3: reading the premium status of a premium account whose
`premium_expires_at` lies strictly in the past demotes it to
`is_premium = false` with `subscription_status = "expired"`, and every
later status read leaves that demoted state fixed. -/
theorem check_premium_status_expires (u : User) (now expiry : DateTime)
    (hp : u.is_premium = true)
    (he : u.premium_expires_at = some expiry)
    (hlt : expiry.lt now = true) :
    (check_premium_status u now).is_premium = false ∧
    (check_premium_status u now).subscription_status = "expired" ∧
    ∀ later : DateTime,
      check_premium_status (check_premium_status u now) later =
        check_premium_status u now := by
  have hu : check_premium_status u now =
      { u with is_premium := false, subscription_status := "expired" } := by
    simp [check_premium_status, hp, he, hlt]
  refine ⟨by simp [hu], by simp [hu], fun later => ?_⟩
  rw [hu]
  simp [check_premium_status]

/-- Witness for C3: the account that lapsed on day 90 is demoted when
read on day 100, and a read on day 200 changes nothing further. -/
theorem check_premium_status_expires_witness :
    (check_premium_status lapsedUser ⟨100, 40⟩).is_premium = false ∧
    (check_premium_status lapsedUser ⟨100, 40⟩).subscription_status = "expired" ∧
    check_premium_status (check_premium_status lapsedUser ⟨100, 40⟩) ⟨200, 0⟩ =
      check_premium_status lapsedUser ⟨100, 40⟩ :=
  ⟨(check_premium_status_expires lapsedUser ⟨100, 40⟩ ⟨90, 0⟩ rfl rfl
      (by decide)).1,
   (check_premium_status_expires lapsedUser ⟨100, 40⟩ ⟨90, 0⟩ rfl rfl
      (by decide)).2.1,
   (check_premium_status_expires lapsedUser ⟨100, 40⟩ ⟨90, 0⟩ rfl rfl
      (by decide)).2.2 ⟨200, 0⟩⟩

/-- One quota-checked increment on a non-premium account whose last
question was today keeps the account non-premium, keeps the last
question date on today, and keeps the daily counter within the
limit. -/
theorem quota_step_preserves (daily_limit today : Nat) (u : User) (t : DateTime)
    (ht : t.day = today)
    (hp : u.is_premium = false)
    (hl : ∃ d, u.last_question_date = some d ∧ d.day = today)
    (hc : u.daily_question_count ≤ daily_limit) :
    (quota_step daily_limit u t).is_premium = false ∧
    (∃ d, (quota_step daily_limit u t).last_question_date = some d ∧
      d.day = today) ∧
    (quota_step daily_limit u t).daily_question_count ≤ daily_limit := by
  obtain ⟨d, hld, hday⟩ := hl
  have hdt : d.day = t.day := by rw [hday, ht]
  by_cases hlt : u.daily_question_count < daily_limit
  · have hcan : u.can_ask_questions t.day daily_limit = true := by
      simp [User.can_ask_questions, hp, hld, hdt, hlt]
    have hstep : quota_step daily_limit u t =
        { u with
          question_count := u.question_count + 1
          daily_question_count := u.daily_question_count + 1
          last_question_date := some t } := by
      simp [quota_step, increment_question_count, hcan,
        User.reset_daily_count_if_needed, hld, hdt]
    rw [hstep]
    exact ⟨hp, ⟨t, rfl, ht⟩, Nat.succ_le_of_lt hlt⟩
  · have hcan : u.can_ask_questions t.day daily_limit = false := by
      simp [User.can_ask_questions, hp, hld, hdt, hlt]
    have hstep : quota_step daily_limit u t = u := by
      simp [quota_step, increment_question_count, hcan]
    rw [hstep]
    exact ⟨hp, ⟨d, hld, hday⟩, hc⟩

/-- The single-step invariant of `quota_step_preserves` extends to
every same-day sequence of quota-checked increments. -/
theorem quota_run_preserves (daily_limit today : Nat) :
    ∀ (times : List DateTime) (u : User),
      (∀ t ∈ times, t.day = today) →
      u.is_premium = false →
      (∃ d, u.last_question_date = some d ∧ d.day = today) →
      u.daily_question_count ≤ daily_limit →
      (quota_run daily_limit u times).daily_question_count ≤ daily_limit
  | [], u, _, _, _, hc => hc
  | t :: ts, u, ht, hp, hl, hc => by
      have h1 := quota_step_preserves daily_limit today u t
        (ht t (List.mem_cons_self t ts)) hp hl hc
      exact quota_run_preserves daily_limit today ts (quota_step daily_limit u t)
        (fun s hs => ht s (List.mem_cons_of_mem t hs)) h1.1 h1.2.1 h1.2.2

/-- C4: on a fixed current date, a non-premium account starting within
the daily limit stays within it under every sequence of quota-checked
increments; at the limit, `can_ask_questions` is false and a
quota-checked increment is the identity. -/
theorem daily_limit_invariant (daily_limit today : Nat) (u : User)
    (times : List DateTime)
    (hp : u.is_premium = false)
    (hl : ∃ d, u.last_question_date = some d ∧ d.day = today)
    (hc : u.daily_question_count ≤ daily_limit)
    (ht : ∀ t ∈ times, t.day = today) :
    (quota_run daily_limit u times).daily_question_count ≤ daily_limit ∧
    (u.daily_question_count = daily_limit →
      u.can_ask_questions today daily_limit = false ∧
      ∀ t : DateTime, t.day = today → quota_step daily_limit u t = u) := by
  refine ⟨quota_run_preserves daily_limit today times u ht hp hl hc,
    fun heq => ?_⟩
  obtain ⟨d, hld, hday⟩ := hl
  have hcan : u.can_ask_questions today daily_limit = false := by
    simp [User.can_ask_questions, hp, hld, hday, heq]
  refine ⟨hcan, fun t htd => ?_⟩
  have hcan2 : u.can_ask_questions t.day daily_limit = false := by
    rw [htd]; exact hcan
  simp [quota_step, increment_question_count, hcan2]

/-- Witness for C4: starting at the limit on day 100, two further
attempts on day 100 leave the daily counter within the limit of 5. -/
theorem daily_limit_invariant_witness :
    (quota_run 5 sampleUser [⟨100, 40⟩, ⟨100, 50⟩]).daily_question_count ≤ 5 :=
  (daily_limit_invariant 5 100 sampleUser [⟨100, 40⟩, ⟨100, 50⟩] rfl
    ⟨⟨100, 30⟩, rfl, rfl⟩ (by decide) (by decide)).1

/-- C5 (code evaluation): on a conversation with eleven messages the
context query keeps the ten oldest messages — `ORDER BY created_at
ASC LIMIT 10` — dropping the most recent message instead of the
oldest, while the route comment and the specification promise the
most recent ten. -/
theorem get_conversation_history_returns_oldest :
    get_conversation_history "c1" histStore =
      [⟨"user", "m01"⟩, ⟨"user", "m02"⟩, ⟨"user", "m03"⟩, ⟨"user", "m04"⟩,
       ⟨"user", "m05"⟩, ⟨"user", "m06"⟩, ⟨"user", "m07"⟩, ⟨"user", "m08"⟩,
       ⟨"user", "m09"⟩, ⟨"user", "m10"⟩] ∧
    (⟨"user", "m11"⟩ : ContextMessage) ∉ get_conversation_history "c1" histStore ∧
    get_conversation_history "c1" histStore ≠
      [⟨"user", "m02"⟩, ⟨"user", "m03"⟩, ⟨"user", "m04"⟩, ⟨"user", "m05"⟩,
       ⟨"user", "m06"⟩, ⟨"user", "m07"⟩, ⟨"user", "m08"⟩, ⟨"user", "m09"⟩,
       ⟨"user", "m10"⟩, ⟨"user", "m11"⟩] := by
  decide

/-- C6: a non-premium account at the daily limit that already asked
today is rejected by `POST /query` with the 429 rate-limit error, and
the rejection returns the account and the store exactly as they came
in — no conversation or message row is written. -/
theorem quota_exceeded_rejection_frame (req : ChatRequest) (u : User)
    (st : Store) (now d : DateTime) (daily_limit : Nat) (ai : AIResponse)
    (c m1 m2 : String)
    (hp : u.is_premium = false)
    (hl : u.last_question_date = some d)
    (hd : d.day = now.day)
    (hc : u.daily_question_count = daily_limit) :
    send_message req u st now daily_limit ai c m1 m2 =
      (u, st, .error .quotaExceeded) ∧
    ChatError.quotaExceeded.status_code = 429 := by
  have hcan : u.can_ask_questions now.day daily_limit = false := by
    simp [User.can_ask_questions, hp, hl, hd, hc]
  exact ⟨by simp [send_message, hcan], rfl⟩

/-- Witness for C6: the sample account (5 of 5 questions used on day
100) is turned away unchanged on day 100. -/
theorem quota_exceeded_rejection_frame_witness :
    send_message ⟨"q", none⟩ sampleUser emptyStore ⟨100, 40⟩ 5 noAI
        "c" "m1" "m2" =
      (sampleUser, emptyStore, .error .quotaExceeded) ∧
    ChatError.quotaExceeded.status_code = 429 :=
  quota_exceeded_rejection_frame ⟨"q", none⟩ sampleUser emptyStore ⟨100, 40⟩
    ⟨100, 30⟩ 5 noAI "c" "m1" "m2" rfl rfl rfl rfl

/-- Counterexample to C7 as stated: the handler checks the quota
before validating the question, so a quota-exhausted account
submitting the empty string is rejected with the 429 rate-limit
error, not a validation error. -/
theorem empty_question_quota_first_cex :
    send_message ⟨"", none⟩ sampleUser emptyStore ⟨100, 40⟩ 5 noAI
        "c" "m1" "m2" =
      (sampleUser, emptyStore, .error .quotaExceeded) ∧
    ChatError.quotaExceeded ≠ ChatError.emptyQuestion ∧
    ChatError.quotaExceeded ≠ ChatError.questionTooLong ∧
    ChatError.quotaExceeded.status_code ≠ 400 :=
  ⟨rfl, by decide, by decide, by decide⟩

/-- C7 (amended): provided the quota check passes, an empty (after
stripping) or over-2000-character question is rejected with a 400
validation error, and the rejection returns the account and the store
exactly as they came in — no conversation or message row is
written. -/
theorem validation_rejection_when_quota_ok (req : ChatRequest) (u : User)
    (st : Store) (now : DateTime) (daily_limit : Nat) (ai : AIResponse)
    (c m1 m2 : String)
    (hcan : u.can_ask_questions now.day daily_limit = true)
    (hbad : (pyStrip req.question).length = 0 ∨ req.question.length > 2000) :
    ∃ e : ChatError,
      send_message req u st now daily_limit ai c m1 m2 = (u, st, .error e) ∧
      e.status_code = 400 := by
  by_cases h0 : (pyStrip req.question).length = 0
  · exact ⟨.emptyQuestion, by simp [send_message, hcan, h0], rfl⟩
  · have h2 : req.question.length > 2000 := hbad.resolve_left h0
    exact ⟨.questionTooLong, by simp [send_message, hcan, h0, h2], rfl⟩

/-- Witness for C7 (amended): an account with no questions asked today
submitting the empty string is rejected with a 400 error and left
unchanged. -/
theorem validation_rejection_when_quota_ok_witness :
    ∃ e : ChatError,
      send_message ⟨"", none⟩ freshUser emptyStore ⟨100, 40⟩ 5 noAI
          "c" "m1" "m2" =
        (freshUser, emptyStore, .error e) ∧
      e.status_code = 400 :=
  validation_rejection_when_quota_ok ⟨"", none⟩ freshUser emptyStore ⟨100, 40⟩
    5 noAI "c" "m1" "m2" (by decide) (Or.inl (by decide))

/-- C8 (amended): the subscription-updated, subscription-deleted,
payment-succeeded and payment-failed handlers are idempotent for every
payload — in particular a repeated "subscription updated → active"
event; the checkout-completed handler is idempotent when replayed at
the same instant (it recomputes `premium_expires_at` from the clock,
so only same-time replays are no-ops). -/
theorem billing_handlers_idempotence :
    (∀ (s : SubscriptionObj) (users : List User),
      handle_subscription_updated s (handle_subscription_updated s users) =
        handle_subscription_updated s users) ∧
    (∀ (s : SubscriptionObj) (users : List User),
      handle_subscription_deleted s (handle_subscription_deleted s users) =
        handle_subscription_deleted s users) ∧
    (∀ (inv : Invoice) (users : List User),
      handle_payment_succeeded inv (handle_payment_succeeded inv users) =
        handle_payment_succeeded inv users) ∧
    (∀ (inv : Invoice) (users : List User),
      handle_payment_failed inv (handle_payment_failed inv users) =
        handle_payment_failed inv users) ∧
    (∀ (s : CheckoutSession) (now : DateTime) (users : List User),
      handle_checkout_completed s now (handle_checkout_completed s now users) =
        handle_checkout_completed s now users) := by
  refine ⟨fun s users => ?_, fun s users => ?_, fun inv users => ?_,
    fun inv users => ?_, fun s now users => ?_⟩
  · exact updateFirst_idem _ _ (apply_subscription_updated_idem s)
      (fun u => by simp [apply_subscription_updated_sub_id]) users
  · exact updateFirst_idem (fun u => u.subscription_id = some s.id)
      (fun u => { u with is_premium := false, subscription_status := "canceled" })
      (fun u => rfl) (fun u => rfl) users
  · cases h : inv.subscription with
    | none => simp [handle_payment_succeeded, h]
    | some sid =>
        simp only [handle_payment_succeeded, h]
        exact updateFirst_idem _ _ (apply_payment_succeeded_idem inv)
          (fun u => by simp [apply_payment_succeeded_sub_id]) users
  · cases h : inv.subscription with
    | none => simp [handle_payment_failed, h]
    | some sid =>
        simp only [handle_payment_failed, h]
        exact updateFirst_idem (fun u => u.subscription_id = some sid)
          (fun u => { u with subscription_status := "past_due" })
          (fun u => rfl) (fun u => rfl) users
  · cases h : s.metadata_user_id with
    | none => simp [handle_checkout_completed, h]
    | some uid =>
        simp only [handle_checkout_completed, h]
        exact updateFirst_idem (fun u => u.id = uid)
          (apply_checkout_completed s now)
          (fun u => by simp [apply_checkout_completed])
          (fun u => by simp [apply_checkout_completed]) users

/-- Counterexample to C8 as stated: replaying the same
checkout-completed payload one hundred days later moves
`premium_expires_at` forward, so the second application is not a
no-op on the state. -/
theorem checkout_replay_not_idempotent_cex :
    handle_checkout_completed checkoutSession1 ⟨200, 0⟩
        (handle_checkout_completed checkoutSession1 ⟨100, 0⟩ [sampleUser]) ≠
      handle_checkout_completed checkoutSession1 ⟨100, 0⟩ [sampleUser] := by
  decide

/-- C9: the payment-failed handler maps the first account matching the
invoice subscription id to the same account with
`subscription_status := "past_due"` and every other field — in
particular `is_premium` and `premium_expires_at` — unchanged. -/
theorem handle_payment_failed_frame (invoice : Invoice) (sid : String)
    (users : List User) (i : Nat) (hi : i < users.length)
    (hs : invoice.subscription = some sid)
    (hmatch : users[i].subscription_id = some sid)
    (hfirst : ∀ j (hj : j < users.length), j < i →
      users[j].subscription_id ≠ some sid) :
    ∃ u', (handle_payment_failed invoice users)[i]? = some u' ∧
      u'.subscription_status = "past_due" ∧
      u'.is_premium = users[i].is_premium ∧
      u'.premium_expires_at = users[i].premium_expires_at ∧
      u'.id = users[i].id ∧
      u'.email = users[i].email ∧
      u'.question_count = users[i].question_count ∧
      u'.daily_question_count = users[i].daily_question_count ∧
      u'.last_question_date = users[i].last_question_date ∧
      u'.total_conversations = users[i].total_conversations ∧
      u'.subscription_id = users[i].subscription_id ∧
      u'.login_count = users[i].login_count ∧
      u'.is_active = users[i].is_active := by
  have key := updateFirst_getElem_first_match
    (fun u => u.subscription_id = some sid)
    (fun u => { u with subscription_status := "past_due" })
    users i hi (by simp [hmatch])
    (fun j hj hji => by simp [hfirst j hj hji])
  refine ⟨{ users[i] with subscription_status := "past_due" }, ?_,
    rfl, rfl, rfl, rfl, rfl, rfl, rfl, rfl, rfl, rfl, rfl, rfl⟩
  simpa [handle_payment_failed, hs] using key

/-- Witness for C9: an active premium subscriber hit by a failed
invoice becomes past due and keeps `is_premium = true` and its expiry
untouched. -/
theorem handle_payment_failed_frame_witness :
    ∃ u', (handle_payment_failed ⟨some "sub9", none⟩ [subUser])[0]? = some u' ∧
      u'.subscription_status = "past_due" ∧
      u'.is_premium = subUser.is_premium ∧
      u'.premium_expires_at = subUser.premium_expires_at ∧
      u'.id = subUser.id ∧
      u'.email = subUser.email ∧
      u'.question_count = subUser.question_count ∧
      u'.daily_question_count = subUser.daily_question_count ∧
      u'.last_question_date = subUser.last_question_date ∧
      u'.total_conversations = subUser.total_conversations ∧
      u'.subscription_id = subUser.subscription_id ∧
      u'.login_count = subUser.login_count ∧
      u'.is_active = subUser.is_active :=
  handle_payment_failed_frame ⟨some "sub9", none⟩ "sub9" [subUser] 0
    (by decide) rfl rfl (fun j hj hj0 => absurd hj0 (Nat.not_lt_zero j))

/-- Counterexample to C10 as stated: the quota check runs before the
whitespace check, so a quota-exhausted account submitting a blank
question is rejected with the 429 rate-limit error, not the
empty-question validation error. -/
theorem whitespace_question_quota_first_cex :
    send_message ⟨"   ", none⟩ sampleUser emptyStore ⟨100, 41⟩ 5 noAI
        "c" "m1" "m2" =
      (sampleUser, emptyStore, .error .quotaExceeded) ∧
    ChatError.quotaExceeded ≠ ChatError.emptyQuestion :=
  ⟨rfl, by decide⟩

/-- C10 (amended): provided the quota check passes, a question that is
blank after stripping is rejected with the empty-question validation
error, behaving exactly as the empty string does, with no conversation
or message row written. -/
theorem whitespace_question_as_empty (q : String) (cid : Option String)
    (u : User) (st : Store) (now : DateTime) (daily_limit : Nat)
    (ai : AIResponse) (c m1 m2 : String)
    (hcan : u.can_ask_questions now.day daily_limit = true)
    (hws : (pyStrip q).length = 0) :
    send_message ⟨q, cid⟩ u st now daily_limit ai c m1 m2 =
      (u, st, .error .emptyQuestion) ∧
    send_message ⟨q, cid⟩ u st now daily_limit ai c m1 m2 =
      send_message ⟨"", cid⟩ u st now daily_limit ai c m1 m2 := by
  have h1 : send_message ⟨q, cid⟩ u st now daily_limit ai c m1 m2 =
      (u, st, .error .emptyQuestion) := by
    simp [send_message, hcan, hws]
  have h2 : send_message ⟨"", cid⟩ u st now daily_limit ai c m1 m2 =
      (u, st, .error .emptyQuestion) := by
    simp [send_message, hcan, show (pyStrip "").length = 0 from rfl]
  exact ⟨h1, h1.trans h2.symm⟩

/-- Witness for C10 (amended): three spaces from a quota-passing
account are rejected exactly as the empty string is. -/
theorem whitespace_question_as_empty_witness :
    send_message ⟨"   ", none⟩ freshUser emptyStore ⟨100, 40⟩ 5 noAI
        "c" "m1" "m2" =
      (freshUser, emptyStore, .error .emptyQuestion) ∧
    send_message ⟨"   ", none⟩ freshUser emptyStore ⟨100, 40⟩ 5 noAI
        "c" "m1" "m2" =
      send_message ⟨"", none⟩ freshUser emptyStore ⟨100, 40⟩ 5 noAI
        "c" "m1" "m2" :=
  whitespace_question_as_empty "   " none freshUser emptyStore ⟨100, 40⟩ 5
    noAI "c" "m1" "m2" (by decide) (by decide)

end ChatDys
